import Mathlib

/-!
Verification of the `journey` trip-planning service (Go) against its
specification.  The workflow handlers of `internal/api/api.go` and the mailer
loop of `internal/mailer/mailpit/mailpit.go` are embedded shallowly: the
store is explicit state (`StoreState`), external collaborator outcomes
(JSON decoding, struct validation, the SMTP client) are parameters, and each
handler is a pure function from state and inputs to a response and a new state.
UUIDs are modelled as `Nat`; the result of `uuid.Parse` is an `Option Nat`
(`none` = parse failure).  `time.Time` values are modelled by `Timestamp`,
carrying a calendar date and a second-of-day.
-/

namespace Journey

/-- Model of a Go `time.Time`: a normalized calendar date plus the time of
day.  `Format(time.DateOnly)` depends only on the date fields. -/
structure Timestamp where
  year : Nat
  month : Nat
  day : Nat
  secOfDay : Nat
deriving Repr, DecidableEq

/-- The calendar date of a timestamp.  Models the grouping key
`activity.OccursAt.Time.Format(time.DateOnly)` in `GetTripsTripIDActivities`:
on normalized `time.Time` values the `"2006-01-02"` rendering is in bijection
with the (year, month, day) triple, so the triple is the exact key. -/
def Timestamp.dateOnly (t : Timestamp) : Nat × Nat × Nat :=
  (t.year, t.month, t.day)

/-- Row of the `trips` table (`pgstore.Trip`). -/
structure Trip where
  id : Nat
  destination : String
  ownerName : String
  ownerEmail : String
  isConfirmed : Bool
  startsAt : Timestamp
  endsAt : Timestamp
deriving Repr, DecidableEq

/-- Row of the `participants` table (`pgstore.Participant`), per the
migration `002_create_participants_table.sql`: id, trip_id, email,
is_confirmed (default false). -/
structure Participant where
  id : Nat
  tripId : Nat
  email : String
  isConfirmed : Bool
deriving Repr, DecidableEq

/-- Row of the `activities` table (`pgstore.Activity`). -/
structure Activity where
  id : Nat
  tripId : Nat
  title : String
  occursAt : Timestamp
deriving Repr, DecidableEq

/-- The persistent state behind the `store` interface of `api.go`. -/
structure StoreState where
  trips : List Trip
  participants : List Participant
  activities : List Activity
deriving Repr, DecidableEq

/-- Modelled from the spec: the pgstore query implementations are not under
`src/`; §4.2 fixes the contract of get-by-ID: the full record, or the
"no rows" sentinel (`pgx.ErrNoRows`, here `none`) when absent. -/
def StoreState.GetTrip (s : StoreState) (id : Nat) : Option Trip :=
  s.trips.find? (fun t => t.id = id)

/-- Modelled from the spec: get-by-ID for participants, per the §4.2 store
contract (`none` models `pgx.ErrNoRows`). -/
def StoreState.GetParticipant (s : StoreState) (id : Nat) : Option Participant :=
  s.participants.find? (fun p => p.id = id)

/-- Modelled from the spec: `pgstore.ConfirmParticipant` is not under `src/`;
per §4.4/§5 it is a single-row update setting is-confirmed to true. -/
def StoreState.ConfirmParticipant (s : StoreState) (id : Nat) : StoreState :=
  { s with
    participants :=
      s.participants.map (fun p =>
        if p.id = id then { p with isConfirmed := true } else p) }

/-- `pgstore.UpdateTripParams` as built in `PutTripsTripID`. -/
structure UpdateTripParams where
  id : Nat
  destination : String
  startsAt : Timestamp
  endsAt : Timestamp
  isConfirmed : Bool
deriving Repr, DecidableEq

/-- Modelled from the spec: `pgstore.UpdateTrip` is not under `src/`; per
§4.2 it overwrites the row's destination, starts-at, ends-at and is-confirmed
columns with the given params. -/
def StoreState.UpdateTrip (s : StoreState) (arg : UpdateTripParams) : StoreState :=
  { s with
    trips :=
      s.trips.map (fun t =>
        if t.id = arg.id then
          { t with
            destination := arg.destination
            startsAt := arg.startsAt
            endsAt := arg.endsAt
            isConfirmed := arg.isConfirmed }
        else t) }

/-- Modelled from the spec: list-by-trip-ID for activities (§4.2). -/
def StoreState.GetTripActivities (s : StoreState) (tripID : Nat) : List Activity :=
  s.activities.filter (fun a => a.tripId = tripID)

/-- Modelled from the spec: list-by-trip-ID for participants (§4.2), used by
the mailer's `SendTripConfirmedEmails`. -/
def StoreState.GetParticipants (s : StoreState) (tripID : Nat) : List Participant :=
  s.participants.filter (fun p => p.tripId = tripID)

/-- `spec.CreateTripRequest` (generated request body of POST /trips). -/
structure CreateTripRequest where
  destination : String
  emailsToInvite : List String
  endsAt : Timestamp
  ownerEmail : String
  ownerName : String
  startsAt : Timestamp
deriving Repr, DecidableEq

/-- `spec.UpdateTripRequest` (request body of PUT /trips/{tripId}). -/
structure UpdateTripRequest where
  destination : String
  endsAt : Timestamp
  startsAt : Timestamp
deriving Repr, DecidableEq

/-- `spec.CreateActivityRequest` (request body of POST .../activities). -/
structure CreateActivityRequest where
  occursAt : Timestamp
  title : String
deriving Repr, DecidableEq

/-- `pgstore.CreateActivityParams` as built in `PostTripsTripIDActivities`. -/
structure CreateActivityParams where
  tripId : Nat
  title : String
  occursAt : Timestamp
deriving Repr, DecidableEq

/-- Modelled from the spec: `pgstore.CreateTrip` is not under `src/`; per §3
and §4.2 it atomically inserts a Trip with is-confirmed false and a
Participant (is-confirmed false) for each invited email, returning the fresh
trip ID.  `newTripID` and `firstParticipantID` stand for the randomly
generated identifiers (§6). -/
def StoreState.CreateTrip (s : StoreState) (body : CreateTripRequest)
    (newTripID : Nat) (firstParticipantID : Nat) : Nat × StoreState :=
  (newTripID,
   { s with
     trips := s.trips ++
       [{ id := newTripID
          destination := body.destination
          ownerName := body.ownerName
          ownerEmail := body.ownerEmail
          isConfirmed := false
          startsAt := body.startsAt
          endsAt := body.endsAt }]
     participants := s.participants ++
       body.emailsToInvite.enum.map (fun e =>
         { id := firstParticipantID + e.1
           tripId := newTripID
           email := e.2
           isConfirmed := false }) })

/-- Modelled from the spec: `pgstore.CreateActivity` is not under `src/`; per
§4.2 creation referencing a missing Trip is rejected at the storage boundary
with the distinguishable "no rows" sentinel (here `none`), which the handler
maps to the domain "not found"; otherwise the Activity row is inserted and
its fresh ID returned. -/
def StoreState.CreateActivity (s : StoreState) (arg : CreateActivityParams)
    (newID : Nat) : Option (Nat × StoreState) :=
  match s.GetTrip arg.tripId with
  | none => none
  | some _ =>
    some (newID,
      { s with
        activities := s.activities ++
          [{ id := newID
             tripId := arg.tripId
             title := arg.title
             occursAt := arg.occursAt }] })

/-- Modelled from the spec: the confirm-trip store update (§4.1 ConfirmTrip),
a single-row update setting is-confirmed to true. -/
def StoreState.ConfirmTrip (s : StoreState) (id : Nat) : StoreState :=
  { s with
    trips :=
      s.trips.map (fun t =>
        if t.id = id then { t with isConfirmed := true } else t) }

/-- Grouping key used by `GetTripsTripIDActivities`: a calendar date. -/
abbrev DateKey := Nat × Nat × Nat

/-- Response bodies of the generated `spec` package, one constructor per
payload shape a handler produces. -/
inductive Body where
  | errorMsg (m : String)
  | empty
  | tripCreated (tripID : Nat)
  | tripDetails (destination : String) (endsAt : Timestamp) (id : Nat)
      (isConfirmed : Bool) (startsAt : Timestamp)
  | activityCreated (activityID : Nat)
  | activitiesGrouped (groups : List (DateKey × List Activity))
deriving Repr, DecidableEq

/-- A `spec.Response`: HTTP status plus body. -/
structure Response where
  status : Nat
  body : Body
deriving Repr, DecidableEq

/-- Modelled from the spec package (generated, not under `src/`): every
`...JSON400Response(spec.Error{Message: m})` call builds a status-400
response carrying the error message. -/
def json400Response (m : String) : Response :=
  { status := 400, body := Body.errorMsg m }

/-- Modelled from the spec package: `...JSON204Response(nil)`. -/
def json204Response : Response :=
  { status := 204, body := Body.empty }

/-- Modelled from the spec package: `PostTripsJSON201Response` with the
created trip's ID. -/
def json201TripResponse (tripID : Nat) : Response :=
  { status := 201, body := Body.tripCreated tripID }

/-- Modelled from the spec package: `GetTripsTripIDJSON200Response` with the
trip details object. -/
def json200TripResponse (destination : String) (endsAt : Timestamp) (id : Nat)
    (isConfirmed : Bool) (startsAt : Timestamp) : Response :=
  { status := 200,
    body := Body.tripDetails destination endsAt id isConfirmed startsAt }

/-- Modelled from the spec package: `PostTripsTripIDActivitiesJSON201Response`
with the created activity's ID. -/
def json201ActivityResponse (activityID : Nat) : Response :=
  { status := 201, body := Body.activityCreated activityID }

/-- Modelled from the spec package: `GetTripsTripIDActivitiesJSON200Response`
with the date-grouped activities. -/
def json200ActivitiesResponse (groups : List (DateKey × List Activity)) : Response :=
  { status := 200, body := Body.activitiesGrouped groups }

namespace API

/-- Handler `PatchParticipantsParticipantIDConfirm` of `api.go` (lines
123-156).  `participantID : Option Nat` is the result of `uuid.Parse`
(`none` = parse failure).  The pure store never raises transient failures,
so the two "something went wrong" branches guarding storage errors cannot
fire; every reachable branch of the source is kept. -/
def PatchParticipantsParticipantIDConfirm (s : StoreState)
    (participantID : Option Nat) : Response × StoreState :=
  match participantID with
  | none => (json400Response "uuid inválido", s)
  | some id =>
    match s.GetParticipant id with
    | none => (json400Response "participante não encontrado", s)
    | some participant =>
      if participant.isConfirmed then
        (json400Response "participante já confirmado", s)
      else
        (json204Response, s.ConfirmParticipant id)

/-- Outcome of the handler `PostTrips`: the response, the resulting store
state, whether the detached owner-confirmation email goroutine was launched,
and whether that goroutine logged a send failure. -/
structure PostTripsOutcome where
  response : Response
  state : StoreState
  emailSendAttempted : Bool
  mailFailureLogged : Bool
deriving Repr, DecidableEq

/-- Outcome of the `api.store.CreateTrip(...)` call as observed by the
handler: either the fresh trip ID together with the store state it committed,
or a storage failure. -/
inductive CreateTripResult where
  | ok (tripID : Nat) (state : StoreState)
  | fail
deriving Repr, DecidableEq

/-- Handler `PostTrips` of `api.go` (lines 165-191).  `body` is the JSON
decoding outcome, `valid` the go-playground struct validator, `r` the store's
`CreateTrip` outcome and `mailSendOk` the result of the detached
`SendConfirmTripEmailToTripOwner` call.  As in the source, the goroutine is
launched right after the store call, before its error is checked, so the send
is attempted on both the failure and the success path; its own failure is
only logged (`mailFailureLogged`), never reflected in the response. -/
def PostTrips (s : StoreState) (body : Except Unit CreateTripRequest)
    (valid : CreateTripRequest → Bool) (r : CreateTripResult)
    (mailSendOk : Bool) : PostTripsOutcome :=
  match body with
  | Except.error _ =>
    { response := json400Response "invalid JSON", state := s
      emailSendAttempted := false, mailFailureLogged := false }
  | Except.ok b =>
    if valid b then
      match r with
      | CreateTripResult.fail =>
        { response := json400Response "something went wrong, try again"
          state := s
          emailSendAttempted := true, mailFailureLogged := !mailSendOk }
      | CreateTripResult.ok tripID s2 =>
        { response := json201TripResponse tripID, state := s2
          emailSendAttempted := true, mailFailureLogged := !mailSendOk }
    else
      { response := json400Response "invalid input", state := s
        emailSendAttempted := false, mailFailureLogged := false }

/-- Handler `GetTripsTripID` of `api.go` (lines 195-220). -/
def GetTripsTripID (s : StoreState) (tripID : Option Nat) : Response :=
  match tripID with
  | none => json400Response "invalid trip id"
  | some id =>
    match s.GetTrip id with
    | none => json400Response "trip not found"
    | some trip =>
      json200TripResponse trip.destination trip.endsAt id trip.isConfirmed
        trip.startsAt

/-- Handler `PutTripsTripID` of `api.go` (lines 224-264).  As in the source,
the trip is fetched first, then the body is decoded and validated, and the
update params carry the fetched trip's `IsConfirmed` unchanged. -/
def PutTripsTripID (s : StoreState) (tripID : Option Nat)
    (body : Except Unit UpdateTripRequest)
    (valid : UpdateTripRequest → Bool) : Response × StoreState :=
  match tripID with
  | none => (json400Response "invalid trip id", s)
  | some id =>
    match s.GetTrip id with
    | none => (json400Response "trip not found", s)
    | some trip =>
      match body with
      | Except.error _ => (json400Response "invalid JSON", s)
      | Except.ok b =>
        if valid b then
          (json204Response,
           s.UpdateTrip
             { id := id
               destination := b.destination
               startsAt := b.startsAt
               endsAt := b.endsAt
               isConfirmed := trip.isConfirmed })
        else (json400Response "invalid input", s)

/-- One step of the grouping loop of `GetTripsTripIDActivities`:
`groupedActivities[date] = append(groupedActivities[date], activity)`.  The
Go map is modelled as an association list; which entry holds a key is
map-internal, the claim-relevant content (key → activities) is exact. -/
def insertGrouped (m : List (DateKey × List Activity)) (k : DateKey)
    (a : Activity) : List (DateKey × List Activity) :=
  match m with
  | [] => [(k, [a])]
  | g :: rest =>
    if g.1 = k then (g.1, g.2 ++ [a]) :: rest
    else g :: insertGrouped rest k a

/-- The grouping loop of `GetTripsTripIDActivities` (lines 286-291): each
activity is appended to the group keyed by the calendar date of its
`OccursAt`. -/
def groupActivities (activities : List Activity) :
    List (DateKey × List Activity) :=
  activities.foldl (fun m a => insertGrouped m a.occursAt.dateOnly a) []

/-- Handler `GetTripsTripIDActivities` of `api.go` (lines 268-312): fetches
the trip's activities and returns them grouped by calendar date.  The pure
store's list query cannot fail, so the two storage-error branches of the
source cannot fire; the output-assembly loop only reshapes the groups. -/
def GetTripsTripIDActivities (s : StoreState) (tripID : Option Nat) : Response :=
  match tripID with
  | none => json400Response "invalid trip id"
  | some id => json200ActivitiesResponse (groupActivities (s.GetTripActivities id))

/-- Handler `PostTripsTripIDActivities` of `api.go` (lines 316-348).
`newID` stands for the store-generated activity ID; a `none` store result is
the `pgx.ErrNoRows` branch, mapped to "trip not found". -/
def PostTripsTripIDActivities (s : StoreState) (tripID : Option Nat)
    (body : Except Unit CreateActivityRequest)
    (valid : CreateActivityRequest → Bool) (newID : Nat) :
    Response × StoreState :=
  match tripID with
  | none => (json400Response "invalid trip id", s)
  | some id =>
    match body with
    | Except.error _ => (json400Response "invalid JSON", s)
    | Except.ok b =>
      if valid b then
        match s.CreateActivity
            { tripId := id, title := b.title, occursAt := b.occursAt } newID with
        | none => (json400Response "trip not found", s)
        | some (activityID, s2) => (json201ActivityResponse activityID, s2)
      else (json400Response "invalid input", s)

/-- Outcome of the confirm-trip handler: response, resulting state, and
whether the mass participant notification fan-out was scheduled. -/
structure ConfirmTripOutcome where
  response : Response
  state : StoreState
  fanOutScheduled : Bool
deriving Repr, DecidableEq

/-- Modelled from the spec: `GetTripsTripIDConfirm` is a stub
(`panic("not implemented")`) in `src/internal/api/api.go`, so the handler is
modelled from §4.1 ConfirmTrip with the §9-recommended idempotency policy:
fails "not found" when the trip is absent; re-confirming an already-confirmed
trip is a no-op that never re-triggers the participant notification; on the
first successful confirmation the trip's is-confirmed flips to true and
`SendTripConfirmedEmails` is scheduled. -/
def GetTripsTripIDConfirm (s : StoreState) (tripID : Option Nat) :
    ConfirmTripOutcome :=
  match tripID with
  | none =>
    { response := json400Response "invalid trip id", state := s
      fanOutScheduled := false }
  | some id =>
    match s.GetTrip id with
    | none =>
      { response := json400Response "trip not found", state := s
        fanOutScheduled := false }
    | some trip =>
      if trip.isConfirmed then
        { response := json204Response, state := s, fanOutScheduled := false }
      else
        { response := json204Response, state := s.ConfirmTrip id
          fanOutScheduled := true }

end API

namespace MailPit

/-- The per-participant send loop of `SendTripConfirmedEmails`
(`mailpit.go` lines 80-97): for each participant in store order, build and
send a message, returning at the first failure.  `send p` is the combined
outcome of the `From`/`To`/`DialAndSend` calls for participant `p`'s message
(true = the email was delivered).  Returns the function's result and the
list of participants whose email was delivered. -/
def sendLoop (send : Participant → Bool) :
    List Participant → Except Unit Unit × List Participant
  | [] => (Except.ok (), [])
  | p :: rest =>
    if send p then
      ((sendLoop send rest).1, p :: (sendLoop send rest).2)
    else (Except.error (), [])

/-- `SendTripConfirmedEmails` of `mailpit.go` (lines 68-100):
`participantsResult` is the outcome of `store.GetParticipants` and
`clientOk` that of `mail.NewClient`; on either failure the error is returned
before any send.  Otherwise the send loop runs over the participants in
store order. -/
def SendTripConfirmedEmails (send : Participant → Bool)
    (participantsResult : Except Unit (List Participant))
    (clientOk : Bool) : Except Unit Unit × List Participant :=
  match participantsResult with
  | Except.error _ => (Except.error (), [])
  | Except.ok participants =>
    if clientOk then sendLoop send participants
    else (Except.error (), [])

end MailPit

/-! ### Helper lemmas about the store operations -/

theorem find?_map_comm {α : Type} (f : α → α) (q : α → Bool)
    (h : ∀ a, q (f a) = q a) (l : List α) :
    (l.map f).find? q = (l.find? q).map f := by
  induction l with
  | nil => rfl
  | cons a l ih =>
    cases hq : q a with
    | true =>
      rw [List.map_cons, List.find?_cons_of_pos _ (by rw [h a, hq]),
        List.find?_cons_of_pos _ hq]
      rfl
    | false =>
      rw [List.map_cons, List.find?_cons_of_neg _ (by simp [h a, hq]),
        List.find?_cons_of_neg _ (by simp [hq]), ih]

theorem find?_append_of_none {α : Type} (q : α → Bool) (l₁ l₂ : List α)
    (h : l₁.find? q = none) : (l₁ ++ l₂).find? q = l₂.find? q := by
  induction l₁ with
  | nil => rfl
  | cons a l ih =>
    cases hq : q a with
    | true => rw [List.find?_cons_of_pos _ hq] at h; exact absurd h (by simp)
    | false =>
      rw [List.find?_cons_of_neg _ (by simp [hq])] at h
      rw [List.cons_append, List.find?_cons_of_neg _ (by simp [hq]), ih h]

theorem GetParticipant_ConfirmParticipant (s : StoreState) (id pid : Nat) :
    (s.ConfirmParticipant id).GetParticipant pid =
      (s.GetParticipant pid).map
        (fun p => if p.id = id then { p with isConfirmed := true } else p) := by
  apply find?_map_comm
  intro p
  by_cases hp : p.id = id <;> simp [hp]

theorem GetTrip_ConfirmTrip (s : StoreState) (id tid : Nat) :
    (s.ConfirmTrip id).GetTrip tid =
      (s.GetTrip tid).map
        (fun t => if t.id = id then { t with isConfirmed := true } else t) := by
  apply find?_map_comm
  intro t
  by_cases ht : t.id = id <;> simp [ht]

/-- The update written by `StoreState.UpdateTrip` to each matching row. -/
def updateTripRow (arg : UpdateTripParams) (t : Trip) : Trip :=
  if t.id = arg.id then
    { t with
      destination := arg.destination
      startsAt := arg.startsAt
      endsAt := arg.endsAt
      isConfirmed := arg.isConfirmed }
  else t

theorem GetTrip_UpdateTrip (s : StoreState) (arg : UpdateTripParams) (tid : Nat) :
    (s.UpdateTrip arg).GetTrip tid =
      (s.GetTrip tid).map (updateTripRow arg) := by
  apply find?_map_comm
  intro t
  by_cases ht : t.id = arg.id <;> simp [updateTripRow, ht]

theorem GetTrip_id_eq {s : StoreState} {id : Nat} {t : Trip}
    (h : s.GetTrip id = some t) : t.id = id := by
  have := List.find?_some h
  simpa using this

theorem GetParticipant_id_eq {s : StoreState} {id : Nat} {p : Participant}
    (h : s.GetParticipant id = some p) : p.id = id := by
  have := List.find?_some h
  simpa using this

theorem GetTrip_CreateTrip (s : StoreState) (b : CreateTripRequest)
    (newTripID firstParticipantID : Nat) (h : s.GetTrip newTripID = none) :
    (s.CreateTrip b newTripID firstParticipantID).2.GetTrip newTripID =
      some { id := newTripID
             destination := b.destination
             ownerName := b.ownerName
             ownerEmail := b.ownerEmail
             isConfirmed := false
             startsAt := b.startsAt
             endsAt := b.endsAt } := by
  show (s.trips ++ [_]).find? _ = _
  rw [find?_append_of_none _ _ _ h]
  simp [List.find?]

/-! ### Equations for the participant-confirmation handler -/

theorem patchConfirm_of_missing (s : StoreState) (id : Nat)
    (hp : s.GetParticipant id = none) :
    API.PatchParticipantsParticipantIDConfirm s (some id)
      = (json400Response "participante não encontrado", s) := by
  simp only [API.PatchParticipantsParticipantIDConfirm]
  rw [hp]

theorem patchConfirm_of_found (s : StoreState) (id : Nat) (p : Participant)
    (hp : s.GetParticipant id = some p) :
    API.PatchParticipantsParticipantIDConfirm s (some id)
      = if p.isConfirmed then (json400Response "participante já confirmado", s)
        else (json204Response, s.ConfirmParticipant id) := by
  simp only [API.PatchParticipantsParticipantIDConfirm]
  rw [hp]

theorem json400_ne_json204 (m : String) : json400Response m ≠ json204Response := by
  intro h
  have h2 : (400 : Nat) = 204 := congrArg Response.status h
  exact absurd h2 (by decide)

/-! ### C1: confirming the same participant twice -/

/-- C1: whenever a `PatchParticipantsParticipantIDConfirm` call succeeds
(204), repeating it on the resulting state fails with "participante já
confirmado" — never "participante não encontrado", never a silent success —
and performs no mutation: the already-confirmed check precedes the store
update, so the second call returns the state unchanged.  The participant's
is-confirmed is true after exactly the one successful call (it was false
before the first call and true after it). -/
theorem C1_confirm_participant_twice (s : StoreState) (participantID : Option Nat)
    (h : (API.PatchParticipantsParticipantIDConfirm s participantID).1
      = json204Response) :
    (API.PatchParticipantsParticipantIDConfirm
        (API.PatchParticipantsParticipantIDConfirm s participantID).2
        participantID).1
      = json400Response "participante já confirmado" ∧
    (API.PatchParticipantsParticipantIDConfirm
        (API.PatchParticipantsParticipantIDConfirm s participantID).2
        participantID).2
      = (API.PatchParticipantsParticipantIDConfirm s participantID).2 ∧
    ∃ id, participantID = some id ∧
      (((API.PatchParticipantsParticipantIDConfirm s participantID).2.GetParticipant
          id).map Participant.isConfirmed = some true) ∧
      (s.GetParticipant id).map Participant.isConfirmed = some false := by
  cases participantID with
  | none =>
    exact absurd h (by simp [API.PatchParticipantsParticipantIDConfirm,
      json400_ne_json204])
  | some id =>
    cases hp : s.GetParticipant id with
    | none =>
      rw [patchConfirm_of_missing s id hp] at h
      exact absurd h (json400_ne_json204 _)
    | some p =>
      cases hc : p.isConfirmed with
      | true =>
        rw [patchConfirm_of_found s id p hp, hc, if_pos rfl] at h
        exact absurd h (json400_ne_json204 _)
      | false =>
        have h1 : API.PatchParticipantsParticipantIDConfirm s (some id)
            = (json204Response, s.ConfirmParticipant id) := by
          rw [patchConfirm_of_found s id p hp, hc]
          simp
        have hget : (s.ConfirmParticipant id).GetParticipant id
            = some { p with isConfirmed := true } := by
          rw [GetParticipant_ConfirmParticipant, hp]
          simp [GetParticipant_id_eq hp]
        have h2 : API.PatchParticipantsParticipantIDConfirm
            (s.ConfirmParticipant id) (some id)
            = (json400Response "participante já confirmado",
               s.ConfirmParticipant id) := by
          rw [patchConfirm_of_found _ id _ hget]
          simp
        refine ⟨?_, ?_, id, rfl, ?_, ?_⟩
        · rw [h1, h2]
        · rw [h1, h2]
        · rw [h1, hget]
          rfl
        · rw [hp]
          simp [hc]

/-- Witness for C1: a store holding one unconfirmed participant; the first
call succeeds and the second fails "participante já confirmado". -/
theorem C1_witness :
    (API.PatchParticipantsParticipantIDConfirm
        ⟨[], [⟨7, 1, "a@x.com", false⟩], []⟩ (some 7)).1 = json204Response ∧
    (API.PatchParticipantsParticipantIDConfirm
        (API.PatchParticipantsParticipantIDConfirm
          ⟨[], [⟨7, 1, "a@x.com", false⟩], []⟩ (some 7)).2 (some 7)).1
      = json400Response "participante já confirmado" :=
  ⟨by decide,
   (C1_confirm_participant_twice ⟨[], [⟨7, 1, "a@x.com", false⟩], []⟩ (some 7)
      (by decide)).1⟩

/-! ### C8: confirming a missing participant -/

/-- C8: `PatchParticipantsParticipantIDConfirm` on a participant ID that does
not exist returns the domain "participante não encontrado" error as a
status-400 response, not a 404. -/
theorem C8_confirm_participant_not_found_is_400 (s : StoreState) (id : Nat)
    (h : s.GetParticipant id = none) :
    (API.PatchParticipantsParticipantIDConfirm s (some id)).1
      = json400Response "participante não encontrado" ∧
    (API.PatchParticipantsParticipantIDConfirm s (some id)).1.status = 400 ∧
    (API.PatchParticipantsParticipantIDConfirm s (some id)).1.status ≠ 404 := by
  rw [patchConfirm_of_missing s id h]
  exact ⟨rfl, rfl, (by decide : (400 : Nat) ≠ 404)⟩

/-- Witness for C8: the empty store. -/
theorem C8_witness :
    (API.PatchParticipantsParticipantIDConfirm ⟨[], [], []⟩ (some 7)).1
      = json400Response "participante não encontrado" :=
  (C8_confirm_participant_not_found_is_400 ⟨[], [], []⟩ 7 (by decide)).1

/-! ### C2: UpdateTrip preserves is-confirmed -/

theorem putTrips_of_found (s : StoreState) (id : Nat) (trip : Trip)
    (ht : s.GetTrip id = some trip) (body : Except Unit UpdateTripRequest)
    (valid : UpdateTripRequest → Bool) :
    API.PutTripsTripID s (some id) body valid
      = match body with
        | Except.error _ => (json400Response "invalid JSON", s)
        | Except.ok b =>
          if valid b then
            (json204Response,
             s.UpdateTrip
               { id := id
                 destination := b.destination
                 startsAt := b.startsAt
                 endsAt := b.endsAt
                 isConfirmed := trip.isConfirmed })
          else (json400Response "invalid input", s) := by
  simp only [API.PutTripsTripID]
  rw [ht]

/-- C2: `PutTripsTripID` never changes any trip's is-confirmed flag (first
conjunct, with no hypothesis at all: across every input, every trip's
is-confirmed reads the same before and after the handler), and a successful
update (trip found, body decoded, validation passed) returns 204 and
overwrites exactly destination, starts-at and ends-at — the stored trip is
the old one with those three fields replaced, so a confirmed trip stays
confirmed. -/
theorem C2_updateTrip_preserves_isConfirmed (s : StoreState)
    (tripID : Option Nat) (body : Except Unit UpdateTripRequest)
    (valid : UpdateTripRequest → Bool) (tid : Nat) :
    (((API.PutTripsTripID s tripID body valid).2.GetTrip tid).map
        Trip.isConfirmed = (s.GetTrip tid).map Trip.isConfirmed) ∧
    (∀ id trip b, tripID = some id → s.GetTrip id = some trip →
      body = Except.ok b → valid b = true →
      (API.PutTripsTripID s tripID body valid).1 = json204Response ∧
      (API.PutTripsTripID s tripID body valid).2.GetTrip id
        = some { trip with
                 destination := b.destination
                 startsAt := b.startsAt
                 endsAt := b.endsAt }) := by
  constructor
  · cases tripID with
    | none => rfl
    | some id =>
      cases ht : s.GetTrip id with
      | none =>
        have : API.PutTripsTripID s (some id) body valid
            = (json400Response "trip not found", s) := by
          simp only [API.PutTripsTripID]
          rw [ht]
        rw [this]
      | some trip =>
        rw [putTrips_of_found s id trip ht]
        cases body with
        | error e => rfl
        | ok b =>
          by_cases hv : valid b
          · simp only [hv, if_true]
            rw [GetTrip_UpdateTrip]
            cases htid : s.GetTrip tid with
            | none => rfl
            | some t =>
              show some (updateTripRow _ t).isConfirmed = some t.isConfirmed
              by_cases hid : t.id = id
              · have htideq : tid = id := by rw [← GetTrip_id_eq htid, hid]
                subst htideq
                rw [ht] at htid
                cases htid
                simp [updateTripRow, hid]
              · simp [updateTripRow, hid]
          · simp [hv]
  · rintro id trip b rfl ht rfl hv
    rw [putTrips_of_found s id trip ht]
    simp only [hv, if_true]
    refine ⟨by simp, ?_⟩
    rw [GetTrip_UpdateTrip, ht]
    show some (updateTripRow _ trip) = _
    simp [updateTripRow, GetTrip_id_eq ht]

/-- Witness for C2: updating a confirmed trip leaves is-confirmed true and
overwrites the three fields. -/
theorem C2_witness :
    (API.PutTripsTripID
        ⟨[⟨3, "Lisboa", "A", "a@x.com", true, ⟨2025, 6, 1, 0⟩, ⟨2025, 6, 10, 0⟩⟩],
         [], []⟩
        (some 3) (Except.ok ⟨"Paris", ⟨2025, 7, 10, 0⟩, ⟨2025, 7, 1, 0⟩⟩)
        (fun _ => true)).1 = json204Response ∧
    (API.PutTripsTripID
        ⟨[⟨3, "Lisboa", "A", "a@x.com", true, ⟨2025, 6, 1, 0⟩, ⟨2025, 6, 10, 0⟩⟩],
         [], []⟩
        (some 3) (Except.ok ⟨"Paris", ⟨2025, 7, 10, 0⟩, ⟨2025, 7, 1, 0⟩⟩)
        (fun _ => true)).2.GetTrip 3
      = some ⟨3, "Paris", "A", "a@x.com", true, ⟨2025, 7, 1, 0⟩, ⟨2025, 7, 10, 0⟩⟩ :=
  (C2_updateTrip_preserves_isConfirmed
      ⟨[⟨3, "Lisboa", "A", "a@x.com", true, ⟨2025, 6, 1, 0⟩, ⟨2025, 6, 10, 0⟩⟩],
       [], []⟩
      (some 3) (Except.ok ⟨"Paris", ⟨2025, 7, 10, 0⟩, ⟨2025, 7, 1, 0⟩⟩)
      (fun _ => true) 3).2 3
    ⟨3, "Lisboa", "A", "a@x.com", true, ⟨2025, 6, 1, 0⟩, ⟨2025, 6, 10, 0⟩⟩
    ⟨"Paris", ⟨2025, 7, 10, 0⟩, ⟨2025, 7, 1, 0⟩⟩ rfl (by decide) rfl rfl

/-! ### C3: ConfirmTrip is idempotent in effect -/

theorem confirmTripHandler_of_found (s : StoreState) (id : Nat) (trip : Trip)
    (h : s.GetTrip id = some trip) :
    API.GetTripsTripIDConfirm s (some id)
      = if trip.isConfirmed then
          { response := json204Response, state := s, fanOutScheduled := false }
        else
          { response := json204Response, state := s.ConfirmTrip id
            fanOutScheduled := true } := by
  simp only [API.GetTripsTripIDConfirm]
  rw [h]

/-- C3: for an existing trip, running the confirm-trip handler twice never
schedules the participant-notification fan-out twice (the second run never
schedules it), and the trip's is-confirmed is true after the first call and
still true after the second. -/
theorem C3_confirmTrip_idempotent (s : StoreState) (id : Nat) (trip : Trip)
    (h : s.GetTrip id = some trip) :
    ¬((API.GetTripsTripIDConfirm s (some id)).fanOutScheduled = true ∧
      (API.GetTripsTripIDConfirm (API.GetTripsTripIDConfirm s (some id)).state
        (some id)).fanOutScheduled = true) ∧
    ((API.GetTripsTripIDConfirm s (some id)).state.GetTrip id).map
        Trip.isConfirmed = some true ∧
    ((API.GetTripsTripIDConfirm (API.GetTripsTripIDConfirm s (some id)).state
        (some id)).state.GetTrip id).map Trip.isConfirmed = some true ∧
    (API.GetTripsTripIDConfirm (API.GetTripsTripIDConfirm s (some id)).state
        (some id)).fanOutScheduled = false := by
  cases hc : trip.isConfirmed with
  | true =>
    have h1 : API.GetTripsTripIDConfirm s (some id)
        = { response := json204Response, state := s, fanOutScheduled := false } := by
      rw [confirmTripHandler_of_found s id trip h, hc, if_pos rfl]
    simp [h1, h, hc]
  | false =>
    have h1 : API.GetTripsTripIDConfirm s (some id)
        = { response := json204Response, state := s.ConfirmTrip id
            fanOutScheduled := true } := by
      rw [confirmTripHandler_of_found s id trip h, hc]
      simp
    have hget : (s.ConfirmTrip id).GetTrip id
        = some { trip with isConfirmed := true } := by
      rw [GetTrip_ConfirmTrip, h]
      simp [GetTrip_id_eq h]
    have h2 : API.GetTripsTripIDConfirm (s.ConfirmTrip id) (some id)
        = { response := json204Response, state := s.ConfirmTrip id
            fanOutScheduled := false } := by
      rw [confirmTripHandler_of_found _ id _ hget]
      simp
    simp [h1, h2, hget]

/-- Witness for C3: an unconfirmed trip; the second confirm call schedules no
fan-out. -/
theorem C3_witness :
    (API.GetTripsTripIDConfirm
        (API.GetTripsTripIDConfirm
          ⟨[⟨3, "Paris", "A", "a@x.com", false, ⟨2025, 6, 1, 0⟩, ⟨2025, 6, 10, 0⟩⟩],
           [], []⟩ (some 3)).state (some 3)).fanOutScheduled = false :=
  (C3_confirmTrip_idempotent
      ⟨[⟨3, "Paris", "A", "a@x.com", false, ⟨2025, 6, 1, 0⟩, ⟨2025, 6, 10, 0⟩⟩],
       [], []⟩ 3
      ⟨3, "Paris", "A", "a@x.com", false, ⟨2025, 6, 1, 0⟩, ⟨2025, 6, 10, 0⟩⟩
      (by decide)).2.2.2

/-! ### C4: the caller-visible result of PostTrips is mailer-independent -/

/-- C4: two runs of `PostTrips` that differ only in the outcome of the
detached owner-confirmation email send return the same response and commit
the same store state: a notification failure is only logged, never surfaced
to the caller. -/
theorem C4_postTrips_independent_of_mailer (s : StoreState)
    (body : Except Unit CreateTripRequest) (valid : CreateTripRequest → Bool)
    (r : API.CreateTripResult) (m1 m2 : Bool) :
    (API.PostTrips s body valid r m1).response
      = (API.PostTrips s body valid r m2).response ∧
    (API.PostTrips s body valid r m1).state
      = (API.PostTrips s body valid r m2).state := by
  cases body with
  | error e => exact ⟨rfl, rfl⟩
  | ok b =>
    by_cases hv : valid b
    · cases r <;> simp [API.PostTrips, hv]
    · simp [API.PostTrips, hv]

/-! ### C9: the email goroutine is launched before the error check -/

/-- C9: for every request that passes JSON decoding and validation,
`PostTrips` launches the owner-confirmation email goroutine regardless of the
store's `CreateTrip` outcome — in particular also when trip creation fails
and the caller receives the generic "something went wrong, try again"
response. -/
theorem C9_email_attempted_even_on_store_failure (s : StoreState)
    (b : CreateTripRequest) (valid : CreateTripRequest → Bool)
    (r : API.CreateTripResult) (mailSendOk : Bool) (h : valid b = true) :
    (API.PostTrips s (Except.ok b) valid r mailSendOk).emailSendAttempted
      = true ∧
    (API.PostTrips s (Except.ok b) valid API.CreateTripResult.fail
        mailSendOk).response
      = json400Response "something went wrong, try again" := by
  constructor
  · cases r <;> simp [API.PostTrips, h]
  · simp [API.PostTrips, h]

/-- Witness for C9: a valid body whose store call fails; the email send is
still attempted. -/
theorem C9_witness :
    (API.PostTrips ⟨[], [], []⟩
        (Except.ok ⟨"Paris", [], ⟨2025, 6, 10, 0⟩, "a@x.com", "A", ⟨2025, 6, 1, 0⟩⟩)
        (fun _ => true) API.CreateTripResult.fail true).emailSendAttempted
      = true :=
  (C9_email_attempted_even_on_store_failure ⟨[], [], []⟩
      ⟨"Paris", [], ⟨2025, 6, 10, 0⟩, "a@x.com", "A", ⟨2025, 6, 1, 0⟩⟩
      (fun _ => true) API.CreateTripResult.fail true rfl).1

/-! ### C5: creating an activity on a missing trip -/

/-- C5: a validated activity-creation request whose trip ID refers to no
existing trip fails with the domain "trip not found" error (status 400 with
that message, the `pgx.ErrNoRows` branch) and leaves the store unchanged —
never the generic "something went wrong, try again" storage error. -/
theorem C5_createActivity_missing_trip_not_found (s : StoreState) (id : Nat)
    (b : CreateActivityRequest) (valid : CreateActivityRequest → Bool)
    (newID : Nat) (h : s.GetTrip id = none) (hv : valid b = true) :
    (API.PostTripsTripIDActivities s (some id) (Except.ok b) valid newID).1
      = json400Response "trip not found" ∧
    (API.PostTripsTripIDActivities s (some id) (Except.ok b) valid newID).2
      = s := by
  have hca : s.CreateActivity
      { tripId := id, title := b.title, occursAt := b.occursAt } newID = none := by
    unfold StoreState.CreateActivity
    rw [show ({ tripId := id, title := b.title, occursAt := b.occursAt } :
      CreateActivityParams).tripId = id from rfl, h]
  simp only [API.PostTripsTripIDActivities, hv, if_true]
  rw [hca]
  exact ⟨rfl, rfl⟩

/-- Witness for C5: empty store, any trip ID. -/
theorem C5_witness :
    (API.PostTripsTripIDActivities ⟨[], [], []⟩ (some 9)
        (Except.ok ⟨⟨2025, 6, 2, 0⟩, "Museu"⟩) (fun _ => true) 1).1
      = json400Response "trip not found" :=
  (C5_createActivity_missing_trip_not_found ⟨[], [], []⟩ 9
      ⟨⟨2025, 6, 2, 0⟩, "Museu"⟩ (fun _ => true) 1 (by decide) rfl).1

/-! ### C7: CreateTrip / GetTrip round-trip -/

/-- C7: creating a trip from a validated request with destination D, start S
and end E (fresh ID) and then fetching it by the returned ID yields a 200
response carrying destination D, starts-at S, ends-at E and
is-confirmed false. -/
theorem C7_createTrip_getTrip_roundTrip (s : StoreState) (b : CreateTripRequest)
    (valid : CreateTripRequest → Bool) (newTripID firstParticipantID : Nat)
    (mailSendOk : Bool) (hfresh : s.GetTrip newTripID = none)
    (hv : valid b = true) :
    (API.PostTrips s (Except.ok b) valid
        (API.CreateTripResult.ok newTripID
          (s.CreateTrip b newTripID firstParticipantID).2) mailSendOk).response
      = json201TripResponse newTripID ∧
    API.GetTripsTripID
        (API.PostTrips s (Except.ok b) valid
          (API.CreateTripResult.ok newTripID
            (s.CreateTrip b newTripID firstParticipantID).2) mailSendOk).state
        (some newTripID)
      = json200TripResponse b.destination b.endsAt newTripID false b.startsAt := by
  have hstate : (API.PostTrips s (Except.ok b) valid
      (API.CreateTripResult.ok newTripID
        (s.CreateTrip b newTripID firstParticipantID).2) mailSendOk).state
      = (s.CreateTrip b newTripID firstParticipantID).2 := by
    simp [API.PostTrips, hv]
  refine ⟨by simp [API.PostTrips, hv], ?_⟩
  rw [hstate]
  simp only [API.GetTripsTripID]
  rw [GetTrip_CreateTrip s b newTripID firstParticipantID hfresh]

/-- Witness for C7: create with destination "Paris", start 2025-06-01, end
2025-06-10 in the empty store, then fetch. -/
theorem C7_witness :
    API.GetTripsTripID
        (API.PostTrips ⟨[], [], []⟩
          (Except.ok ⟨"Paris", [], ⟨2025, 6, 10, 0⟩, "a@x.com", "A", ⟨2025, 6, 1, 0⟩⟩)
          (fun _ => true)
          (API.CreateTripResult.ok 1
            ((⟨[], [], []⟩ : StoreState).CreateTrip
              ⟨"Paris", [], ⟨2025, 6, 10, 0⟩, "a@x.com", "A", ⟨2025, 6, 1, 0⟩⟩ 1 2).2)
          true).state
        (some 1)
      = json200TripResponse "Paris" ⟨2025, 6, 10, 0⟩ 1 false ⟨2025, 6, 1, 0⟩ :=
  (C7_createTrip_getTrip_roundTrip ⟨[], [], []⟩
      ⟨"Paris", [], ⟨2025, 6, 10, 0⟩, "a@x.com", "A", ⟨2025, 6, 1, 0⟩⟩
      (fun _ => true) 1 2 true (by decide) rfl).2

/-! ### C6: activities are grouped exactly by calendar date -/

open API

theorem insertGrouped_cons_of_eq (g0 : DateKey × List Activity)
    (rest : List (DateKey × List Activity)) (k : DateKey) (a : Activity)
    (h0 : g0.1 = k) :
    insertGrouped (g0 :: rest) k a = (g0.1, g0.2 ++ [a]) :: rest := by
  simp [insertGrouped, h0]

theorem insertGrouped_cons_of_ne (g0 : DateKey × List Activity)
    (rest : List (DateKey × List Activity)) (k : DateKey) (a : Activity)
    (h0 : ¬g0.1 = k) :
    insertGrouped (g0 :: rest) k a = g0 :: insertGrouped rest k a := by
  simp [insertGrouped, h0]

theorem insertGrouped_key_sound (m : List (DateKey × List Activity))
    (k : DateKey) (a : Activity)
    (hm : ∀ g ∈ m, ∀ x ∈ g.2, x.occursAt.dateOnly = g.1)
    (ha : a.occursAt.dateOnly = k) :
    ∀ g ∈ insertGrouped m k a, ∀ x ∈ g.2, x.occursAt.dateOnly = g.1 := by
  induction m with
  | nil =>
    intro g hg x hx
    simp only [insertGrouped, List.mem_singleton] at hg
    subst hg
    simp only [List.mem_singleton] at hx
    subst hx
    exact ha
  | cons g0 rest ih =>
    intro g hg x hx
    by_cases h0 : g0.1 = k
    · rw [insertGrouped_cons_of_eq g0 rest k a h0, List.mem_cons] at hg
      cases hg with
      | inl he =>
        subst he
        rw [List.mem_append] at hx
        cases hx with
        | inl hx0 => exact hm g0 (List.mem_cons_self _ _) x hx0
        | inr hx1 =>
          rw [List.mem_singleton] at hx1
          subst hx1
          rw [ha, ← h0]
      | inr hmem => exact hm g (List.mem_cons_of_mem _ hmem) x hx
    · rw [insertGrouped_cons_of_ne g0 rest k a h0, List.mem_cons] at hg
      cases hg with
      | inl he => subst he; exact hm g (List.mem_cons_self _ _) x hx
      | inr hmem =>
        exact ih (fun g' hg' => hm g' (List.mem_cons_of_mem _ hg')) g hmem x hx

theorem insertGrouped_keys (m : List (DateKey × List Activity)) (k : DateKey)
    (a : Activity) :
    (insertGrouped m k a).map Prod.fst
      = if k ∈ m.map Prod.fst then m.map Prod.fst
        else m.map Prod.fst ++ [k] := by
  induction m with
  | nil => simp [insertGrouped]
  | cons g0 rest ih =>
    by_cases h0 : g0.1 = k
    · rw [insertGrouped_cons_of_eq g0 rest k a h0, List.map_cons, List.map_cons,
        if_pos (by rw [List.mem_cons]; exact Or.inl h0.symm)]
    · rw [insertGrouped_cons_of_ne g0 rest k a h0, List.map_cons, ih,
        List.map_cons]
      by_cases hk : k ∈ rest.map Prod.fst
      · rw [if_pos hk, if_pos (by rw [List.mem_cons]; exact Or.inr hk)]
      · rw [if_neg hk, if_neg (by
          rw [List.mem_cons]
          rintro (h1 | h2)
          · exact h0 h1.symm
          · exact hk h2), List.cons_append]

theorem insertGrouped_keys_nodup (m : List (DateKey × List Activity))
    (k : DateKey) (a : Activity) (h : (m.map Prod.fst).Nodup) :
    ((insertGrouped m k a).map Prod.fst).Nodup := by
  rw [insertGrouped_keys]
  by_cases hk : k ∈ m.map Prod.fst
  · rwa [if_pos hk]
  · rw [if_neg hk]
    simp [List.nodup_append, h, hk]

theorem insertGrouped_mem_preserved (m : List (DateKey × List Activity))
    (k : DateKey) (a : Activity) (k0 : DateKey) (x : Activity)
    (h : ∃ g ∈ m, g.1 = k0 ∧ x ∈ g.2) :
    ∃ g ∈ insertGrouped m k a, g.1 = k0 ∧ x ∈ g.2 := by
  induction m with
  | nil => simp at h
  | cons g0 rest ih =>
    obtain ⟨g, hg, hk0, hx⟩ := h
    rw [List.mem_cons] at hg
    by_cases h0 : g0.1 = k
    · rw [insertGrouped_cons_of_eq g0 rest k a h0]
      cases hg with
      | inl he =>
        subst he
        exact ⟨(g.1, g.2 ++ [a]), List.mem_cons_self _ _, hk0,
          List.mem_append_left _ hx⟩
      | inr hmem => exact ⟨g, List.mem_cons_of_mem _ hmem, hk0, hx⟩
    · rw [insertGrouped_cons_of_ne g0 rest k a h0]
      cases hg with
      | inl he => subst he; exact ⟨g, List.mem_cons_self _ _, hk0, hx⟩
      | inr hmem =>
        obtain ⟨g', hg', hk', hx'⟩ := ih ⟨g, hmem, hk0, hx⟩
        exact ⟨g', List.mem_cons_of_mem _ hg', hk', hx'⟩

theorem insertGrouped_mem_inserted (m : List (DateKey × List Activity))
    (k : DateKey) (a : Activity) :
    ∃ g ∈ insertGrouped m k a, g.1 = k ∧ a ∈ g.2 := by
  induction m with
  | nil => exact ⟨(k, [a]), by simp [insertGrouped]⟩
  | cons g0 rest ih =>
    by_cases h0 : g0.1 = k
    · refine ⟨(g0.1, g0.2 ++ [a]), ?_, h0, by simp⟩
      rw [insertGrouped_cons_of_eq g0 rest k a h0]
      exact List.mem_cons_self _ _
    · obtain ⟨g, hg, hk, ha⟩ := ih
      refine ⟨g, ?_, hk, ha⟩
      rw [insertGrouped_cons_of_ne g0 rest k a h0]
      exact List.mem_cons_of_mem _ hg

theorem groupLoop_key_sound (acts : List Activity)
    (m : List (DateKey × List Activity))
    (hm : ∀ g ∈ m, ∀ x ∈ g.2, x.occursAt.dateOnly = g.1) :
    ∀ g ∈ acts.foldl (fun m a => insertGrouped m a.occursAt.dateOnly a) m,
      ∀ x ∈ g.2, x.occursAt.dateOnly = g.1 := by
  induction acts generalizing m with
  | nil => exact hm
  | cons a rest ih =>
    rw [List.foldl_cons]
    exact ih _ (insertGrouped_key_sound m _ a hm rfl)

theorem groupLoop_keys_nodup (acts : List Activity)
    (m : List (DateKey × List Activity)) (hm : (m.map Prod.fst).Nodup) :
    (((acts.foldl (fun m a => insertGrouped m a.occursAt.dateOnly a) m)).map
      Prod.fst).Nodup := by
  induction acts generalizing m with
  | nil => exact hm
  | cons a rest ih =>
    rw [List.foldl_cons]
    exact ih _ (insertGrouped_keys_nodup _ _ _ hm)

theorem groupLoop_mem_preserved (acts : List Activity)
    (m : List (DateKey × List Activity)) (k0 : DateKey) (x : Activity)
    (h : ∃ g ∈ m, g.1 = k0 ∧ x ∈ g.2) :
    ∃ g ∈ acts.foldl (fun m a => insertGrouped m a.occursAt.dateOnly a) m,
      g.1 = k0 ∧ x ∈ g.2 := by
  induction acts generalizing m with
  | nil => exact h
  | cons a rest ih =>
    rw [List.foldl_cons]
    exact ih _ (insertGrouped_mem_preserved _ _ _ _ _ h)

theorem groupLoop_mem (acts : List Activity) (a : Activity) (ha : a ∈ acts)
    (m : List (DateKey × List Activity)) :
    ∃ g ∈ acts.foldl (fun m a => insertGrouped m a.occursAt.dateOnly a) m,
      g.1 = a.occursAt.dateOnly ∧ a ∈ g.2 := by
  induction acts generalizing m with
  | nil => cases ha
  | cons a0 rest ih =>
    rw [List.foldl_cons]
    rw [List.mem_cons] at ha
    cases ha with
    | inl he =>
      subst he
      exact groupLoop_mem_preserved rest _ _ _
        (insertGrouped_mem_inserted m _ a)
    | inr hmem => exact ih hmem _

theorem eq_of_mem_of_nodup_keys {β : Type} {l : List (DateKey × β)}
    (h : (l.map Prod.fst).Nodup) {g1 g2 : DateKey × β}
    (h1 : g1 ∈ l) (h2 : g2 ∈ l) (hk : g1.1 = g2.1) : g1 = g2 := by
  induction l with
  | nil => cases h1
  | cons g0 rest ih =>
    rw [List.map_cons, List.nodup_cons] at h
    rw [List.mem_cons] at h1 h2
    cases h1 with
    | inl e1 =>
      cases h2 with
      | inl e2 => rw [e1, e2]
      | inr m2 =>
        exact absurd (show g0.1 ∈ rest.map Prod.fst from by
          rw [← e1, hk]; exact List.mem_map_of_mem Prod.fst m2) h.1
    | inr m1 =>
      cases h2 with
      | inl e2 =>
        exact absurd (show g0.1 ∈ rest.map Prod.fst from by
          rw [← e2, ← hk]; exact List.mem_map_of_mem Prod.fst m1) h.1
      | inr m2 => exact ih h.2 m1 m2

/-- C6: the date-grouping of `GetTripsTripIDActivities` partitions a trip's
activities exactly by calendar date: two listed activities lie in a common
group precisely when their `occursAt` timestamps fall on the same calendar
date (time-of-day ignored); on different dates no group contains both. -/
theorem C6_activities_grouped_by_calendar_date (activities : List Activity)
    (a b : Activity) (ha : a ∈ activities) (hb : b ∈ activities) :
    a.occursAt.dateOnly = b.occursAt.dateOnly ↔
      ∃ g ∈ groupActivities activities, a ∈ g.2 ∧ b ∈ g.2 := by
  simp only [groupActivities]
  constructor
  · intro hdate
    obtain ⟨ga, hga, hka, hma⟩ := groupLoop_mem activities a ha []
    obtain ⟨gb, hgb, hkb, hmb⟩ := groupLoop_mem activities b hb []
    have hnodup := groupLoop_keys_nodup activities [] (by simp)
    have heq : ga = gb :=
      eq_of_mem_of_nodup_keys hnodup hga hgb (by rw [hka, hkb, hdate])
    exact ⟨ga, hga, hma, heq ▸ hmb⟩
  · rintro ⟨g, hg, hma, hmb⟩
    have hsound := groupLoop_key_sound activities [] (by simp)
    rw [hsound g hg a hma, hsound g hg b hmb]

/-- Witness for C6: two activities on 2025-06-01 at different times of day
land in one common group. -/
theorem C6_witness :
    ∃ g ∈ groupActivities
        [⟨1, 1, "Breakfast", ⟨2025, 6, 1, 28800⟩⟩,
         ⟨2, 1, "Dinner", ⟨2025, 6, 1, 68400⟩⟩],
      (⟨1, 1, "Breakfast", ⟨2025, 6, 1, 28800⟩⟩ : Activity) ∈ g.2 ∧
      (⟨2, 1, "Dinner", ⟨2025, 6, 1, 68400⟩⟩ : Activity) ∈ g.2 :=
  (C6_activities_grouped_by_calendar_date
      [⟨1, 1, "Breakfast", ⟨2025, 6, 1, 28800⟩⟩,
       ⟨2, 1, "Dinner", ⟨2025, 6, 1, 68400⟩⟩]
      ⟨1, 1, "Breakfast", ⟨2025, 6, 1, 28800⟩⟩
      ⟨2, 1, "Dinner", ⟨2025, 6, 1, 68400⟩⟩
      (by decide) (by decide)).mp (by decide)

/-! ### C10: the mailer send loop stops at the first failure -/

/-- C10: once the participant list is fetched and the client created,
`SendTripConfirmedEmails` walks the participants in store order: it returns
success exactly when every individual send succeeds, the delivered emails
are exactly the longest all-successful prefix of the list, and once one send
fails, the failing participant and every participant after it receive no
email. -/
theorem C10_sendEmails_sequential_first_failure (send : Participant → Bool)
    (participants : List Participant) :
    ((MailPit.SendTripConfirmedEmails send (Except.ok participants) true).1
        = Except.ok () ↔ ∀ p ∈ participants, send p = true) ∧
    (MailPit.SendTripConfirmedEmails send (Except.ok participants) true).2
      = participants.takeWhile send ∧
    (∀ pre p post, participants = pre ++ p :: post →
      (∀ q ∈ pre, send q = true) → send p = false →
      (MailPit.SendTripConfirmedEmails send (Except.ok participants) true).2
        = pre) := by
  have key : ∀ l : List Participant,
      ((MailPit.sendLoop send l).1 = Except.ok () ↔ ∀ p ∈ l, send p = true) ∧
      (MailPit.sendLoop send l).2 = l.takeWhile send := by
    intro l
    induction l with
    | nil => exact ⟨by simp [MailPit.sendLoop], by simp [MailPit.sendLoop]⟩
    | cons p rest ih =>
      constructor
      · cases hp : send p with
        | true => simp [MailPit.sendLoop, hp, ih.1]
        | false => simp [MailPit.sendLoop, hp]
      · cases hp : send p with
        | true => simp [MailPit.sendLoop, hp, ih.2, List.takeWhile_cons]
        | false => simp [MailPit.sendLoop, hp, List.takeWhile_cons]
  have hmain : MailPit.SendTripConfirmedEmails send (Except.ok participants) true
      = MailPit.sendLoop send participants := by
    simp [MailPit.SendTripConfirmedEmails]
  have htw : ∀ (pre : List Participant) (p : Participant)
      (post : List Participant), (∀ q ∈ pre, send q = true) → send p = false →
      (pre ++ p :: post).takeWhile send = pre := by
    intro pre
    induction pre with
    | nil =>
      intro p post _ hp
      simp [List.takeWhile_cons, hp]
    | cons q pre ih =>
      intro p post hall hp
      have hq : send q = true := hall q (List.mem_cons_self _ _)
      simp [List.takeWhile_cons, hq,
        ih p post (fun r hr => hall r (List.mem_cons_of_mem _ hr)) hp]
  refine ⟨?_, ?_, ?_⟩
  · rw [hmain]; exact (key participants).1
  · rw [hmain]; exact (key participants).2
  · rintro pre p post rfl hall hp
    rw [hmain, (key _).2, htw pre p post hall hp]

/-- Witness for C10: three participants where only the first send succeeds;
exactly the first participant's email is delivered. -/
theorem C10_witness :
    (MailPit.SendTripConfirmedEmails (fun p => p.id == 1)
        (Except.ok [⟨1, 1, "a@x.com", false⟩, ⟨2, 1, "b@x.com", false⟩,
          ⟨3, 1, "c@x.com", false⟩]) true).2
      = [⟨1, 1, "a@x.com", false⟩] :=
  (C10_sendEmails_sequential_first_failure (fun p => p.id == 1)
      [⟨1, 1, "a@x.com", false⟩, ⟨2, 1, "b@x.com", false⟩,
       ⟨3, 1, "c@x.com", false⟩]).2.2
    [⟨1, 1, "a@x.com", false⟩] ⟨2, 1, "b@x.com", false⟩
    [⟨3, 1, "c@x.com", false⟩] rfl (by decide) (by decide)
